import Mathlib

/-!
Shallow embedding of the rustuv asynchronous socket layer, from
`src/librustuv/net.rs` and `src/librustuv/pipe.rs`.

Conventions of the embedding:
* Native reactor calls (`uv_tcp_connect`, `uv_listen`, ...) are modelled by
  taking their returned status codes and callback arguments as explicit
  inputs; the control flow around them is translated line by line.
* A fatal task failure (a Rust `assert!` firing or an `unwrap` of `None`)
  is modelled by the function returning `none`.
* Resource events (handle allocation, handle close) and abstract method
  actions (firing the homing missile, granting an Access cell, ...) are
  recorded as explicit lists so that leak-freedom and call-ordering
  properties become statements about those lists.
* Components of this repository that are not under `src/` (the `Access`
  guard of access.rs, the `Refcount` of rc.rs, the generic blocking
  `UvHandle::close`) are modelled from the spec; each such definition says
  so in its doc comment.
-/

/-- Concrete stand-in for the libuv cancellation status `uvll::ECANCELED`.
Only its identity (a fixed nonzero status code) matters to the model. -/
def ECANCELED : Int := -125

/-- Wrapper `UvError(n)` around a nonzero native status code
(`super::UvError`); `uv_error_to_io_error` is abstracted as carrying the
code through. -/
structure UvError where
  code : Int
deriving DecidableEq

/-- Kernel-side resources allocated during socket setup. -/
inductive Res
  | tcpHandle
  | pipeHandle
  | pollHandle
  | osSocket
deriving DecidableEq

/-- Resource events emitted by a setup routine: `alloc` covers
`malloc_handle` / `libc::socket`, `close` covers `uv_close` (whose callback
frees the handle) and the blocking close performed by a Drop impl. -/
inductive REvent
  | alloc (r : Res)
  | close (r : Res)
deriving DecidableEq

/-- A trace is leak free when every allocated resource is also closed. -/
def closesAllB (tr : List REvent) : Bool :=
  tr.all fun e =>
    match e with
    | REvent.alloc r => decide (REvent.close r ∈ tr)
    | REvent.close _ => true

/-- Embedding of `TcpWatcher::connect` (net.rs 119-155), parameterised by
the immediate return code of `uv_tcp_connect` and the status later handed
to `connect_cb`.  `TcpWatcher::new` allocates the TCP handle
(`uv_tcp_init` is asserted to succeed).  On either error path the local
watcher is dropped; its Drop impl (net.rs 264-271) fires the homing
missile, finds the refcount final and closes the handle. -/
def tcpConnect (connectResult cbStatus : Int) : Except UvError Unit × List REvent :=
  if connectResult = 0 then
    if cbStatus = 0 then
      (Except.ok (), [REvent.alloc Res.tcpHandle])
    else
      (Except.error ⟨cbStatus⟩, [REvent.alloc Res.tcpHandle, REvent.close Res.tcpHandle])
  else
    (Except.error ⟨connectResult⟩, [REvent.alloc Res.tcpHandle, REvent.close Res.tcpHandle])

/-- Embedding of `RawSocketWatcher::new` (net.rs 684-710).  The poll handle
is malloc'ed first; then `libc::socket` runs (`socketFails` = it returned
-1); then `make_nonblocking` runs (`nonblockFails` = it reported an error);
finally `uv_poll_init_socket` is asserted to succeed.  When `socket` fails
the function returns the error with the poll handle neither closed nor
freed.  When `make_nonblocking` fails the constructed watcher is dropped,
whose Drop (net.rs 717-722) closes the poll handle, but nothing closes the
OS socket. -/
def rawSocketNew (socketFails nonblockFails : Bool) : Except Unit Unit × List REvent :=
  if socketFails then
    (Except.error (), [REvent.alloc Res.pollHandle])
  else if nonblockFails then
    (Except.error (),
      [REvent.alloc Res.pollHandle, REvent.alloc Res.osSocket, REvent.close Res.pollHandle])
  else
    (Except.ok (), [REvent.alloc Res.pollHandle, REvent.alloc Res.osSocket])

/-- Embedding of `PipeListener::bind` (pipe.rs 148-165), parameterised by
the return code of `uv_pipe_bind`: on failure the pipe handle is closed
via `uv_close(pipe, pipe_close_cb)` before the error is returned. -/
def pipeListenerBind (bindResult : Int) : Except UvError Unit × List REvent :=
  if bindResult = 0 then
    (Except.ok (), [REvent.alloc Res.pipeHandle])
  else
    (Except.error ⟨bindResult⟩, [REvent.alloc Res.pipeHandle, REvent.close Res.pipeHandle])

/-- Abstract reactor identity (one per event loop / scheduler). -/
abbrev ReactorId := Nat

/-- A message pushed by a listen callback onto a TCP listener's incoming
queue: `Ok(stream)` carrying the new watcher's home reactor and the fact
that `uv_accept` succeeded, or `Err(kind)` carrying the status code. -/
inductive ListenMsg
  | ok (clientHome : ReactorId) (accepted : Bool)
  | err (code : Int)
deriving DecidableEq

/-- State of a `TcpListener` (net.rs 84-90): home reactor, the
`closing_task` slot, and the incoming queue (the sender/receiver channel
pair is modelled as the list of queued messages). -/
structure TcpListener where
  home : ReactorId
  closing_task : Option Nat
  incoming : List ListenMsg
deriving DecidableEq

/-- `TcpAcceptor` (net.rs 92-94): owns the listener. -/
structure TcpAcceptor where
  listener : TcpListener
deriving DecidableEq

/-- Backlog passed to `uv_listen` by `TcpListener::listen` (net.rs 324). -/
def tcpListenBacklog : Int := 128

/-- Embedding of `TcpListener::listen` (net.rs 317-329): moves the listener
into a `TcpAcceptor`, fires the homing missile, and calls
`uv_listen(handle, 128, listen_cb)`; 0 yields the acceptor, any other
status yields the translated error. -/
def tcpListen (l : TcpListener) (listenResult : Int) : Except UvError TcpAcceptor :=
  if listenResult = 0 then Except.ok ⟨l⟩ else Except.error ⟨listenResult⟩

/-- Embedding of net.rs `listen_cb` (331-346): asserts the status is not
ECANCELED (`none` models that assertion firing); on status 0 it allocates
a fresh TCP handle homed on the listener's home reactor
(`TcpWatcher::new_home(&loop_, tcp.home().clone())`), `uv_accept`s it
(asserted to succeed) and sends `Ok(stream)` on the outgoing channel; on
any other status it sends `Err(kind)`. -/
def listen_cb (l : TcpListener) (status : Int) : Option TcpListener :=
  if status = ECANCELED then none
  else if status = 0 then
    some { l with incoming := l.incoming ++ [ListenMsg.ok l.home true] }
  else
    some { l with incoming := l.incoming ++ [ListenMsg.err status] }

/-- Embedding of `TcpAcceptor::accept` (net.rs 369-371): receives the next
message from the listener's incoming queue (blocking when empty, modelled
as `none`). -/
def tcpAccept (a : TcpAcceptor) : Option (ListenMsg × TcpAcceptor) :=
  match a.listener.incoming with
  | [] => none
  | m :: rest => some (m, ⟨{ a.listener with incoming := rest }⟩)

/-- Abstract peer socket address (`ip::SocketAddr`). -/
abbrev SockAddr := Nat

/-- Abstract uv buffer token (the caller's buffer lent to alloc_cb). -/
abbrev Buf := Nat

/-- The continuation of `UdpWatcher::recvfrom` (net.rs `struct Ctx`,
446-450), minus the parked-task slot which the effect record below
covers. -/
structure RecvCtx where
  buf : Option Buf
  result : Option (Int × Option SockAddr)
deriving DecidableEq

/-- Side effects of one invocation of the UDP `recv_cb`: whether
`uv_udp_recv_stop` was called and whether the parked task was woken. -/
structure RecvEffects where
  stoppedRecv : Bool
  woken : Bool
deriving DecidableEq

/-- Embedding of the UDP `recv_cb` (net.rs 488-518).  It asserts
`nread != ECANCELED` (`none` models the assertion firing).  With
`nread == 0` it restores the buffer into the continuation and returns
without stopping the receive or waking.  Otherwise it stops the receive,
records `(nread, addr)` where `addr = none` models a null sockaddr
pointer, and wakes the task. -/
def udp_recv_cb (cx : RecvCtx) (nread : Int) (buf : Buf) (addr : Option SockAddr) :
    Option (RecvCtx × RecvEffects) :=
  if nread = ECANCELED then none
  else if nread = 0 then
    some ({ cx with buf := some buf }, ⟨false, false⟩)
  else
    some ({ cx with result := some (nread, addr) }, ⟨true, true⟩)

/-- The tail of `UdpWatcher::recvfrom` after wakeup (net.rs 468-471):
`cx.result.take_unwrap()` followed by the match; a negative recorded
`nread` becomes a translated error, otherwise the result is
`Ok((nread, addr.unwrap()))`.  `none` models a task failure: the
`take_unwrap` of an empty result or the `unwrap` of an absent address. -/
def recvfromFinish (result : Option (Int × Option SockAddr)) :
    Option (Except UvError (Nat × SockAddr)) :=
  match result with
  | none => none
  | some (n, a) =>
    if n < 0 then some (Except.error ⟨n⟩)
    else
      match a with
      | some addr => some (Except.ok (n.toNat, addr))
      | none => none

/-- Direction of a stream Access cell. -/
inductive Dir
  | read
  | write
deriving DecidableEq

/-- Abstract actions a socket method performs, in program order, as read
off the method bodies in net.rs and pipe.rs. -/
inductive MOp
  | homing
  | grant (d : Dir)
  | streamRead
  | streamWrite
  | udpRecvStart
  | udpSend
  | uvShutdown
  | sockNameCall
  | tcpSetter
  | udpSetter
  | pollStart
  | uvListen
  | queueRecv
  | refcountDec
  | genericClose
  | parkClosingTask
  | uvClose
deriving DecidableEq

/-- `TcpWatcher::read` (net.rs 170-174): homing missile, grant of the read
Access cell, then the stream read. -/
def tcpReadOps : List MOp := [MOp.homing, MOp.grant Dir.read, MOp.streamRead]

/-- `TcpWatcher::write` (net.rs 176-180). -/
def tcpWriteOps : List MOp := [MOp.homing, MOp.grant Dir.write, MOp.streamWrite]

/-- `UdpWatcher::recvfrom` entry sequence (net.rs 443-457). -/
def udpRecvfromOps : List MOp := [MOp.homing, MOp.grant Dir.read, MOp.udpRecvStart]

/-- `UdpWatcher::sendto` entry sequence (net.rs 521-535). -/
def udpSendtoOps : List MOp := [MOp.homing, MOp.grant Dir.write, MOp.udpSend]

/-- `PipeWatcher::read` (pipe.rs 119-122): fires the missiles and reads the
stream directly; the pipe watcher owns no Access cells. -/
def pipeReadOps : List MOp := [MOp.homing, MOp.streamRead]

/-- `PipeWatcher::write` (pipe.rs 124-127). -/
def pipeWriteOps : List MOp := [MOp.homing, MOp.streamWrite]

/-- `TcpWatcher::close_write` (net.rs 227-257): allocates a shutdown
request and calls `uv_shutdown(req.handle, self.handle, shutdown_cb)`
directly; no homing missile is fired anywhere in the method. -/
def tcpCloseWriteOps : List MOp := [MOp.uvShutdown]

/-- `socket_name` / `peer_name` on TCP, the TCP acceptor and UDP (net.rs
163-166, 182-185, 311-314, 362-365, 436-439). -/
def sockNameOps : List MOp := [MOp.homing, MOp.sockNameCall]

/-- TCP option setters: `control_congestion`, `nodelay`, `keepalive`,
`letdie` (net.rs 187-214) and the acceptor's `accept_simultaneously` /
`dont_accept_simultaneously` (net.rs 373-385). -/
def tcpOptionOps : List MOp := [MOp.homing, MOp.tcpSetter]

/-- UDP option setters: multicast membership, multicast loop, ttl,
broadcast (net.rs 561-628). -/
def udpOptionOps : List MOp := [MOp.homing, MOp.udpSetter]

/-- `TcpWatcher::clone` / `UdpWatcher::clone` (net.rs 216-225, 630-638):
pure struct construction, no homing and no native call. -/
def cloneOps : List MOp := []

/-- `TcpAcceptor::accept` (net.rs 369-371): receives from the incoming
queue without homing (the queue, not the handle, is touched). -/
def tcpAcceptOps : List MOp := [MOp.queueRecv]

/-- `TcpListener::listen` / `PipeListener::listen` (net.rs 317-329,
pipe.rs 169-184). -/
def listenOps : List MOp := [MOp.homing, MOp.uvListen]

/-- `RawSocketWatcher::recvfrom` / `sendto` entry sequences (net.rs
729-751, 808-833). -/
def rawPollOps : List MOp := [MOp.homing, MOp.pollStart]

/-- `PipeAcceptor::accept` (pipe.rs 233-236): fires the missiles, then
receives from the incoming tube. -/
def pipeAcceptOps : List MOp := [MOp.homing, MOp.queueRecv]

/-- Drop for `TcpWatcher` and `UdpWatcher` (net.rs 264-271, 641-649):
homing missile, refcount decrement, close when final. -/
def watcherDropOps : List MOp := [MOp.homing, MOp.refcountDec, MOp.genericClose]

/-- Drop for `TcpListener` (net.rs 348-353): homing missile, then the
generic `UvHandle::close`. -/
def tcpListenerDropOps : List MOp := [MOp.homing, MOp.genericClose]

/-- Drop for `RawSocketWatcher` (net.rs 717-722). -/
def rawSocketDropOps : List MOp := [MOp.homing, MOp.genericClose]

/-- Drop for `PipeWatcher` (pipe.rs 134-139): fires the missiles, then
`stream.close(true)` (synchronous close). -/
def pipeWatcherDropOps : List MOp := [MOp.homing, MOp.genericClose]

/-- Drop for `PipeListener` (pipe.rs 211-219): fires the missiles, parks
the dropping task in `closing_task`, and issues
`uv_close(pipe, listener_close_cb)`. -/
def pipeListenerDropOps : List MOp := [MOp.homing, MOp.parkClosingTask, MOp.uvClose]

/-- Every public method of the layer, as its op list. -/
def methodOpsTable : List (List MOp) :=
  [tcpReadOps, tcpWriteOps, udpRecvfromOps, udpSendtoOps, pipeReadOps,
   pipeWriteOps, tcpCloseWriteOps, sockNameOps, tcpOptionOps, udpOptionOps,
   cloneOps, tcpAcceptOps, listenOps, rawPollOps, pipeAcceptOps]

/-- Every Drop impl of the layer, as its op list. -/
def dropOpsTable : List (List MOp) :=
  [watcherDropOps, tcpListenerDropOps, rawSocketDropOps,
   pipeWatcherDropOps, pipeListenerDropOps]

/-- Whether an abstract action operates on the native handle. -/
def touchesHandle : MOp → Bool
  | MOp.homing => false
  | MOp.grant _ => false
  | MOp.queueRecv => false
  | MOp.refcountDec => false
  | MOp.parkClosingTask => false
  | _ => true

/-- A method op list is properly homed when the homing missile fires
before any action that touches the native handle. -/
def homesFirst : List MOp → Bool
  | [] => true
  | MOp.homing :: _ => true
  | op :: rest => !touchesHandle op && homesFirst rest

/-- An op that parks the dropping task until the reactor has delivered the
close callback: either the pipe listener's explicit park on
`closing_task`, or the generic `UvHandle::close` (modelled from the spec
as blocking, see `closesDuringDrops`). -/
def blocksUntilCloseCb : MOp → Bool
  | MOp.genericClose => true
  | MOp.parkClosingTask => true
  | _ => false

/-- Modelled from the spec: the `Access` guard of access.rs, which is not
under src/.  A FIFO of pending waiters plus a held flag; at most one
holder is active at a time. -/
structure AccessState where
  held : Bool
  queue : List Nat
deriving DecidableEq

/-- Modelled from the spec: `Access::grant`.  Uncontended, it marks the
cell held and the caller proceeds (`true`); contended, it appends the
caller to the FIFO and the caller suspends (`false`). -/
def accessGrant (t : Nat) (s : AccessState) : AccessState × Bool :=
  if s.held then ({ s with queue := s.queue ++ [t] }, false)
  else ({ held := true, queue := s.queue }, true)

/-- Modelled from the spec: releasing an Access cell wakes the head of the
FIFO (synchronous handoff), or clears the held flag when nobody waits. -/
def accessRelease (s : AccessState) : AccessState × Option Nat :=
  match s.queue with
  | [] => ({ held := false, queue := [] }, none)
  | t :: rest => ({ held := true, queue := rest }, some t)

/-- The two independent per-direction Access cells a TCP or UDP stream
owns (net.rs 80-81, 398-399). -/
structure StreamAccess where
  readCell : AccessState
  writeCell : AccessState
deriving DecidableEq

/-- `TcpWatcher` as the record of its shared component identities (net.rs
70-82): the kernel handle and the identities of the shared home handle,
refcount and the two Access cells. -/
structure TcpWatcher where
  handle : Nat
  home : ReactorId
  refcountId : Nat
  readAccessId : Nat
  writeAccessId : Nat
deriving DecidableEq

/-- `UdpWatcher` (net.rs 392-400), same shape. -/
structure UdpWatcher where
  handle : Nat
  home : ReactorId
  refcountId : Nat
  readAccessId : Nat
  writeAccessId : Nat
deriving DecidableEq

/-- `TcpWatcher::clone` (net.rs 216-225): builds a new watcher over the
same handle, cloning the home handle, refcount and both Access cells
(clones of those share identity); no new kernel handle is created. -/
def tcpClone (w : TcpWatcher) : TcpWatcher :=
  { handle := w.handle, home := w.home, refcountId := w.refcountId,
    readAccessId := w.readAccessId, writeAccessId := w.writeAccessId }

/-- `UdpWatcher::clone` (net.rs 630-638). -/
def udpClone (w : UdpWatcher) : UdpWatcher :=
  { handle := w.handle, home := w.home, refcountId := w.refcountId,
    readAccessId := w.readAccessId, writeAccessId := w.writeAccessId }

/-- Resource events of a clone: none — neither `malloc_handle` nor any
`uv_*_init` is called. -/
def cloneEvents : List REvent := []

/-- Modelled from the spec: `Refcount::decrement` of rc.rs, which is not
under src/.  The shared count drops by one and the call reports "final"
exactly when the count has reached zero. -/
def refcountDecrement (c : Nat) : Nat × Bool := (c - 1, c - 1 = 0)

/-- The Drop impls of `TcpWatcher` and `UdpWatcher` (net.rs 264-271,
641-649) run once per holder: each fires the homing missile, decrements
the shared refcount and closes the handle only when the decrement was
final.  This counts the closes over `d` successive drops starting from
shared count `c` (the decrement itself is modelled from the spec, see
`refcountDecrement`). -/
def closesDuringDrops : Nat → Nat → Nat
  | 0, _ => 0
  | d + 1, c =>
    (if (refcountDecrement c).2 then 1 else 0) + closesDuringDrops d (refcountDecrement c).1

/-- Embedding of net.rs `connect_cb` (148-154): asserts the status is not
ECANCELED (`none` models the assertion firing), then stores the status in
the continuation and wakes the task. -/
def connect_cb (status : Int) : Option Int :=
  if status = ECANCELED then none else some status

/-- Embedding of net.rs `shutdown_cb` (250-256), same discipline. -/
def shutdown_cb (status : Int) : Option Int :=
  if status = ECANCELED then none else some status

/-- Embedding of the UDP `send_cb` (net.rs 552-558), same discipline. -/
def send_cb (status : Int) : Option Int :=
  if status = ECANCELED then none else some status

/-- A message pushed by the pipe `listen_cb` onto the outgoing tube. -/
inductive PipeMsg
  | ok (accepted : Bool)
  | err (code : Int)
deriving DecidableEq

/-- Embedding of pipe.rs `connect_cb` (98-114): there is no ECANCELED
assertion; status 0 yields `Ok(PipeWatcher)`, any other status frees the
handle and yields `Err(UvError(n))`; the connecting task is always
resumed with that result. -/
def pipe_connect_cb (status : Int) : Option (Except UvError Unit) :=
  some (if status = 0 then Except.ok () else Except.error ⟨status⟩)

/-- Embedding of pipe.rs `listen_cb` (194-209): there is no ECANCELED
assertion; status 0 allocates and accepts a pipe client and sends `Ok`,
any other status sends `Err(kind)` on the outgoing tube. -/
def pipe_listen_cb (status : Int) : Option PipeMsg :=
  some (if status = 0 then PipeMsg.ok true else PipeMsg.err status)

/-- State of a `PipeListener` (pipe.rs 31-36). -/
structure PipeListener where
  home : ReactorId
  closing_task : Option Nat
  outgoing : List PipeMsg
deriving DecidableEq

/-- Embedding of `PipeListener`'s Drop (pipe.rs 211-219): after homing it
deschedules the running task, stores it in the `closing_task` slot and
calls `uv_close(pipe, listener_close_cb)`; the task resumes only when
that callback fires. -/
def pipeListenerDrop (l : PipeListener) (curTask : Nat) : PipeListener × List MOp :=
  ({ l with closing_task := some curTask }, pipeListenerDropOps)

/-- Embedding of pipe.rs `listener_close_cb` (222-228): frees the handle
and resumes the task taken from `closing_task` (`none` models the
`take_unwrap` failing when the slot is empty). -/
def listener_close_cb (l : PipeListener) : Option (PipeListener × Nat) :=
  match l.closing_task with
  | none => none
  | some t => some ({ l with closing_task := none }, t)

/-- Embedding of `TcpListener`'s Drop (net.rs 348-353): fires the homing
missile and calls the generic `UvHandle::close` (modelled from the spec
as a close blocking until the close callback — `UvHandle::close` lives in
uvll glue not under src/).  The listener's `closing_task` slot is never
touched. -/
def tcpListenerDrop (l : TcpListener) : TcpListener × List MOp :=
  (l, tcpListenerDropOps)

/-- Abstract raw-socket peer address (`~raw::NetworkAddress`). -/
abbrev NetAddr := Nat

/-- Embedding of the raw-socket `recv_cb` (net.rs 762-805), recording the
`(len, addr)` pair placed into the continuation.  Inputs: the poll
status, the outcome of the nonblocking `libc::recvfrom` (error carries
the positive errno), and the result of
`netsupport::sockaddr_to_network_addr` for the received sockaddr. -/
def raw_recv_cb (status : Int) (syscall : Except Int Nat) (translated : Option NetAddr) :
    Int × Option NetAddr :=
  if status < 0 then (status, none)
  else
    match syscall with
    | Except.error e => (-e, none)
    | Except.ok len => (Int.ofNat len, translated)

/-- The tail of `RawSocketWatcher::recvfrom` after wakeup (net.rs
752-756): a negative recorded length is a translated error, otherwise the
result is `Ok((len, Some(addr.unwrap())))` — `none` models the `unwrap`
failing when no `NetworkAddress` was recorded. -/
def rawRecvfromFinish (r : Int × Option NetAddr) :
    Option (Except Int (Nat × Option NetAddr)) :=
  if r.1 < 0 then some (Except.error r.1)
  else
    match r.2 with
    | some a => some (Except.ok (r.1.toNat, some a))
    | none => none

/-- Over `k + 1` holders each dropping once from a shared count of
`k + 1`, exactly one Drop observes the final decrement. -/
theorem closesDuringDrops_self (k : Nat) : closesDuringDrops (k + 1) (k + 1) = 1 := by
  induction k with
  | zero => rfl
  | succ n ih =>
    simpa [closesDuringDrops, refcountDecrement] using ih

/-- C1: setup failures propagate as errors, and the TCP connect and pipe
bind error paths close the half-constructed handle — but
`RawSocketWatcher::new` leaks: when `libc::socket` fails the malloc'ed
poll handle is never closed, and when `make_nonblocking` fails the OS
socket is never closed. -/
theorem C1_setup_failure_leak :
    (rawSocketNew true false).1 = Except.error () ∧
    closesAllB (rawSocketNew true false).2 = false ∧
    (rawSocketNew false true).1 = Except.error () ∧
    closesAllB (rawSocketNew false true).2 = false ∧
    closesAllB (tcpConnect 0 (-1)).2 = true ∧
    closesAllB (tcpConnect (-1) 0).2 = true ∧
    closesAllB (pipeListenerBind (-1)).2 = true :=
  ⟨rfl, rfl, rfl, rfl, rfl, rfl, rfl⟩

/-- C2: `TcpListener::listen` hands the listener to an acceptor and
listens with backlog exactly 128; `listen_cb` pushes `Ok(stream)` homed
on the listener's own reactor for status 0 and `Err(kind)` for any other
status, and the next `accept()` receives exactly the pushed message. -/
theorem C2_listen_queue (l : TcpListener) (r s : Int) :
    tcpListenBacklog = 128 ∧
    (r = 0 → tcpListen l r = Except.ok ⟨l⟩) ∧
    (r ≠ 0 → tcpListen l r = Except.error ⟨r⟩) ∧
    (s = 0 → listen_cb l s =
      some { l with incoming := l.incoming ++ [ListenMsg.ok l.home true] }) ∧
    (s ≠ 0 → s ≠ ECANCELED → listen_cb l s =
      some { l with incoming := l.incoming ++ [ListenMsg.err s] }) ∧
    (s ≠ 0 → s ≠ ECANCELED → l.incoming = [] →
      ((listen_cb l s).bind fun l2 => tcpAccept ⟨l2⟩) =
        some (ListenMsg.err s, ⟨{ l with incoming := [] }⟩)) := by
  refine ⟨rfl, ?_, ?_, ?_, ?_, ?_⟩
  · intro h; simp [tcpListen, h]
  · intro h; simp [tcpListen, h]
  · intro h; subst h; simp [listen_cb, ECANCELED]
  · intro h1 h2; simp [listen_cb, h1, h2]
  · intro h1 h2 h3
    have e1 : listen_cb l s = some { l with incoming := l.incoming ++ [ListenMsg.err s] } := by
      simp [listen_cb, h1, h2]
    rw [e1, h3]
    rfl

/-- C2 witness: a failed background accept with status -1 on a fresh
listener is surfaced by the next accept. -/
theorem C2_listen_queue_witness :
    ((listen_cb ⟨0, none, []⟩ (-1)).bind fun l2 => tcpAccept ⟨l2⟩) =
      some (ListenMsg.err (-1), ⟨⟨0, none, []⟩⟩) :=
  (C2_listen_queue ⟨0, none, []⟩ 0 (-1)).2.2.2.2.2 (by decide) (by decide) rfl

/-- C3: the UDP recv callback with nread 0 restores the buffer, keeps the
receive started and does not wake; with nread ≠ 0 it stops the receive,
records `(nread, peer)` with the peer present only when a sockaddr was
supplied, and wakes; a negative recorded nread makes recvfrom return the
translated error. -/
theorem C3_udp_recv_states (cx : RecvCtx) (nread : Int) (b : Buf) (a : Option SockAddr) :
    udp_recv_cb cx 0 b a = some ({ cx with buf := some b }, ⟨false, false⟩) ∧
    (nread ≠ 0 → nread ≠ ECANCELED →
      udp_recv_cb cx nread b a = some ({ cx with result := some (nread, a) }, ⟨true, true⟩)) ∧
    (nread < 0 → recvfromFinish (some (nread, a)) = some (Except.error ⟨nread⟩)) := by
  refine ⟨?_, ?_, ?_⟩
  · simp [udp_recv_cb, ECANCELED]
  · intro h1 h2; simp [udp_recv_cb, h1, h2]
  · intro h; simp [recvfromFinish, h]

/-- C3 witness at nread = -7 with a supplied peer. -/
theorem C3_udp_recv_states_witness :
    udp_recv_cb ⟨some 0, none⟩ (-7) 1 (some 2) =
      some (⟨some 0, some (-7, some 2)⟩, ⟨true, true⟩) ∧
    recvfromFinish (some (-7, some 2)) = some (Except.error ⟨-7⟩) :=
  ⟨(C3_udp_recv_states ⟨some 0, none⟩ (-7) 1 (some 2)).2.1 (by decide) (by decide),
   (C3_udp_recv_states ⟨some 0, none⟩ (-7) 1 (some 2)).2.2 (by decide)⟩

/-- C4 counterexample: the recv callback delivering nread 1 with a null
sockaddr records `(1, none)` and the success path's `addr.unwrap()` then
fails the task, refuting "the unwrap ... never fails". -/
theorem C4_cex :
    udp_recv_cb ⟨none, none⟩ 1 0 none = some (⟨none, some (1, none)⟩, ⟨true, true⟩) ∧
    recvfromFinish (some (1, none)) = none :=
  ⟨rfl, rfl⟩

/-- C4 (amended): a successful UDP recvfrom returns `(nread, peer)` only
when the callback recorded a peer — with nonnegative recorded nread, a
supplied sockaddr yields `Ok (nread, peer)` while an absent sockaddr makes
the unwrap a task failure rather than an Ok without an address. -/
theorem C4_recvfrom_peer (n : Int) (a : Option SockAddr) (h : 0 ≤ n) :
    (∀ addr, a = some addr → recvfromFinish (some (n, a)) = some (Except.ok (n.toNat, addr))) ∧
    (a = none → recvfromFinish (some (n, a)) = none) := by
  have hn : ¬ n < 0 := not_lt.mpr h
  constructor
  · intro addr ha; subst ha; simp [recvfromFinish, hn]
  · intro ha; subst ha; simp [recvfromFinish, hn]

/-- C4 witness at nread 5 and peer 3. -/
theorem C4_recvfrom_peer_witness :
    recvfromFinish (some (5, some 3)) = some (Except.ok (5, 3)) :=
  (C4_recvfrom_peer 5 (some 3) (by decide)).1 3 rfl

/-- C5 counterexample: a pipe stream owns no Access cells —
`PipeWatcher::read` and `PipeWatcher::write` grant nothing before touching
the stream, refuting the claim for pipe streams. -/
theorem C5_cex :
    pipeReadOps.contains (MOp.grant Dir.read) = false ∧
    pipeWriteOps.contains (MOp.grant Dir.write) = false ∧
    pipeReadOps.contains MOp.streamRead = true := by decide

/-- C5 (amended): TCP and UDP streams own two independent Access cells —
reads grant the read cell and writes the write cell, a second concurrent
reader suspends FIFO behind the holder while a writer on the other cell
proceeds at once, and release hands the cell to the queued reader; pipe
streams own no Access cells. -/
theorem C5_access_cells (a b c : Nat) (s : StreamAccess)
    (hr : s.readCell.held = false) (hw : s.writeCell.held = false) :
    tcpReadOps.contains (MOp.grant Dir.read) = true ∧
    tcpWriteOps.contains (MOp.grant Dir.write) = true ∧
    udpRecvfromOps.contains (MOp.grant Dir.read) = true ∧
    udpSendtoOps.contains (MOp.grant Dir.write) = true ∧
    pipeReadOps.contains (MOp.grant Dir.read) = false ∧
    (accessGrant a s.readCell).2 = true ∧
    (accessGrant b (accessGrant a s.readCell).1).2 = false ∧
    (accessGrant b (accessGrant a s.readCell).1).1.queue = s.readCell.queue ++ [b] ∧
    (accessGrant c s.writeCell).2 = true ∧
    (s.readCell.queue = [] →
      (accessRelease (accessGrant b (accessGrant a s.readCell).1).1).2 = some b) := by
  refine ⟨by decide, by decide, by decide, by decide, by decide, ?_, ?_, ?_, ?_, ?_⟩
  · simp [accessGrant, hr]
  · simp [accessGrant, hr]
  · simp [accessGrant, hr]
  · simp [accessGrant, hw]
  · intro hq; simp [accessGrant, accessRelease, hr, hq]

/-- C5 witness: on a fresh stream, reader 1 acquires, reader 2 suspends,
writer 3 acquires at once. -/
theorem C5_access_cells_witness :
    (accessGrant 2 (accessGrant 1 (⟨false, []⟩ : AccessState)).1).2 = false ∧
    (accessGrant 3 (⟨false, []⟩ : AccessState)).2 = true :=
  ⟨(C5_access_cells 1 2 3 ⟨⟨false, []⟩, ⟨false, []⟩⟩ rfl rfl).2.2.2.2.2.2.1,
   (C5_access_cells 1 2 3 ⟨⟨false, []⟩, ⟨false, []⟩⟩ rfl rfl).2.2.2.2.2.2.2.2.1⟩

/-- C6: `TcpWatcher::close_write` issues `uv_shutdown` on the native
handle without ever firing the homing missile, violating the
every-public-method-homes rule, while every other public method and every
Drop impl does home first. -/
theorem C6_close_write_unhomed :
    homesFirst tcpCloseWriteOps = false ∧
    tcpCloseWriteOps.contains MOp.uvShutdown = true ∧
    tcpCloseWriteOps.contains MOp.homing = false ∧
    methodOpsTable.all homesFirst = false ∧
    ((methodOpsTable.filter fun o => decide (o ≠ tcpCloseWriteOps)).all homesFirst) = true ∧
    (dropOpsTable.all fun o => o.contains MOp.homing) = true := by decide

/-- C7: a TCP or UDP clone shares the kernel handle, refcount and both
Access cells and allocates no new handle; over `k ≥ 1` holders each
dropping once, the shared refcount makes exactly one Drop close the
handle. -/
theorem C7_clone_refcount (w : TcpWatcher) (u : UdpWatcher) (k : Nat) (hk : 1 ≤ k) :
    (tcpClone w).handle = w.handle ∧
    (tcpClone w).refcountId = w.refcountId ∧
    (tcpClone w).readAccessId = w.readAccessId ∧
    (tcpClone w).writeAccessId = w.writeAccessId ∧
    (udpClone u).handle = u.handle ∧
    (udpClone u).refcountId = u.refcountId ∧
    (udpClone u).readAccessId = u.readAccessId ∧
    (udpClone u).writeAccessId = u.writeAccessId ∧
    cloneEvents = [] ∧
    watcherDropOps.contains MOp.refcountDec = true ∧
    closesDuringDrops k k = 1 := by
  obtain ⟨m, rfl⟩ : ∃ m, k = m + 1 := ⟨k - 1, (Nat.succ_pred_eq_of_pos hk).symm⟩
  exact ⟨rfl, rfl, rfl, rfl, rfl, rfl, rfl, rfl, rfl, by decide, closesDuringDrops_self m⟩

/-- C7 witness: three clones dropping once close the handle exactly
once. -/
theorem C7_clone_refcount_witness : closesDuringDrops 3 3 = 1 :=
  (C7_clone_refcount ⟨0, 0, 0, 0, 0⟩ ⟨0, 0, 0, 0, 0⟩ 3 (by decide)).2.2.2.2.2.2.2.2.2.2

/-- C8 counterexample: the pipe connect and listen callbacks perform no
ECANCELED assertion — at status ECANCELED they produce an ordinary error
result instead of failing. -/
theorem C8_cex :
    pipe_connect_cb ECANCELED = some (Except.error ⟨ECANCELED⟩) ∧
    pipe_listen_cb ECANCELED = some (PipeMsg.err ECANCELED) :=
  ⟨rfl, rfl⟩

/-- C8 (amended): the net.rs callbacks — TCP connect, shutdown, UDP send,
UDP recv and TCP listen — all assert their status is not ECANCELED, while
the pipe.rs connect and listen callbacks perform no such check and
propagate ECANCELED as an ordinary error. -/
theorem C8_canceled_asserts :
    connect_cb ECANCELED = none ∧
    shutdown_cb ECANCELED = none ∧
    send_cb ECANCELED = none ∧
    listen_cb ⟨0, none, []⟩ ECANCELED = none ∧
    udp_recv_cb ⟨none, none⟩ ECANCELED 0 none = none ∧
    pipe_connect_cb ECANCELED = some (Except.error ⟨ECANCELED⟩) ∧
    pipe_listen_cb ECANCELED = some (PipeMsg.err ECANCELED) :=
  ⟨rfl, rfl, rfl, rfl, rfl, rfl, rfl⟩

/-- C9 counterexample: `TcpListener`'s Drop never parks the dropping task
in its `closing_task` slot — the slot is untouched and no park action is
performed, refuting the claim for the TCP listener. -/
theorem C9_cex :
    (tcpListenerDrop ⟨0, none, []⟩).1.closing_task = none ∧
    (tcpListenerDrop ⟨0, none, []⟩).2.contains MOp.parkClosingTask = false :=
  ⟨rfl, by decide⟩

/-- C9 (amended): every Drop migrates home and performs a close that
blocks the dropping task until the close callback; the pipe listener's
Drop parks the task in `closing_task` and `listener_close_cb` resumes
exactly that task, while the TCP listener's Drop calls the generic
blocking close and leaves its `closing_task` slot untouched. -/
theorem C9_close_discipline (l : PipeListener) (t : Nat) (tl : TcpListener) :
    (pipeListenerDrop l t).2 = [MOp.homing, MOp.parkClosingTask, MOp.uvClose] ∧
    (pipeListenerDrop l t).1.closing_task = some t ∧
    listener_close_cb (pipeListenerDrop l t).1 = some ({ l with closing_task := none }, t) ∧
    (tcpListenerDrop tl).2.contains MOp.homing = true ∧
    (tcpListenerDrop tl).2.any blocksUntilCloseCb = true ∧
    (tcpListenerDrop tl).1.closing_task = tl.closing_task ∧
    (dropOpsTable.all fun o => o.any blocksUntilCloseCb) = true :=
  ⟨rfl, rfl, rfl, rfl, rfl, rfl, by decide⟩

/-- C10: every Ok of `RawSocketWatcher::recvfrom` carries a `Some`
address: with a nonnegative recorded length and no translated
NetworkAddress the success path's unwrap is a task failure, never an Ok
with an absent address; the recv callback records the syscall length
together with whatever the address translation produced. -/
theorem C10_raw_ok_addr (r : Int × Option NetAddr) :
    (∀ n, rawRecvfromFinish r = some (Except.ok (n, none)) → False) ∧
    (0 ≤ r.1 → r.2 = none → rawRecvfromFinish r = none) ∧
    (∀ len a, raw_recv_cb 0 (Except.ok len) a = (Int.ofNat len, a)) := by
  obtain ⟨v, a⟩ := r
  refine ⟨?_, ?_, ?_⟩
  · intro m h
    by_cases hv : v < 0
    · simp [rawRecvfromFinish, hv] at h
    · cases a with
      | none => simp [rawRecvfromFinish, hv] at h
      | some x => simp [rawRecvfromFinish, hv] at h
  · intro h1 h2
    simp only at h2
    subst h2
    simp [rawRecvfromFinish, not_lt.mpr h1]
  · intro len a2
    rfl

/-- C10 witness: a received length 3 whose sockaddr could not be
translated makes the success path fail rather than return Ok. -/
theorem C10_raw_ok_addr_witness :
    rawRecvfromFinish (3, (none : Option NetAddr)) = none :=
  (C10_raw_ok_addr (3, none)).2.1 (by decide) rfl
